import Mathlib

/-!
Shallow embedding of the ZenTerm terminal-session core:
`src-tauri/src/terminal/pty.rs` (PtyManager) and
`src-tauri/src/terminal/session.rs` (SessionManager).

Modelling conventions:
* Rust `HashMap<String, V>` registries become association lists
  `List (String × V)` with `lookup` / `mapInsert` / `mapUpdate` / `eraseKey`
  mirroring `get`, `insert`, `get_mut` mutation and `remove`;
  `keys().next()` becomes the head key of the list (an arbitrary key,
  as in a HashMap).
* OS effects are explicit parameters: the fresh UUID and timestamp an
  operation generates are arguments, and the success of a fallible OS
  step (PTY allocation / shell spawn, PTY write, resize ioctl) is a
  `Bool` argument; the errors keep the messages the Rust code or the
  error taxonomy uses.
* Every method on `&self` that mutates through the interior mutex is a
  function `State → result × State`, returning the result together with
  the post-state (also on error, since mutations before a `?` persist).
* The PTY device owned by a session is abstracted to the observable
  state the operations touch: the byte stream written to its writer
  (`writeln!` appends the command plus a newline) and its geometry
  (`resize` sets rows/cols).
-/

/-- One line of PTY output (struct `TerminalOutput` in pty.rs). -/
structure TerminalOutput where
  session_id : String
  content : String
  is_error : Bool
  timestamp : Nat
deriving DecidableEq, Repr

/-- Enum `CommandStatus` in pty.rs. -/
inductive CommandStatus where
  | Running
  | Completed
  | Failed
deriving DecidableEq, Repr

/-- Struct `CommandBlock` in pty.rs. -/
structure CommandBlock where
  id : String
  session_id : String
  command : String
  output : List TerminalOutput
  exit_code : Option Int
  start_time : Nat
  end_time : Option Nat
  status : CommandStatus
deriving DecidableEq, Repr

/-- Struct `TerminalSession` in session.rs (the logical Session). -/
structure TerminalSession where
  id : String
  name : String
  active : Bool
  current_directory : String
  commands : List CommandBlock
deriving DecidableEq, Repr

/-- Struct `PtySession` in pty.rs. The `pty` master handle and `writer`
are abstracted to the state they expose to the operations: the written
byte stream and the device geometry. -/
structure PtySession where
  id : String
  current_command : Option CommandBlock
  written : String
  rows : Nat
  cols : Nat
deriving DecidableEq, Repr

/-- Association-list lookup, modelling `HashMap::get`. -/
def lookupKey {α : Type} (k : String) : List (String × α) → Option α
  | [] => none
  | (k', v) :: rest => if k' = k then some v else lookupKey k rest

/-- Association-list removal, modelling `HashMap::remove`. -/
def eraseKey {α : Type} (k : String) : List (String × α) → List (String × α)
  | [] => []
  | (k', v) :: rest =>
    if k' = k then eraseKey k rest else (k', v) :: eraseKey k rest

/-- Association-list insert, modelling `HashMap::insert` (replaces any
existing binding of the key). -/
def mapInsert {α : Type} (l : List (String × α)) (k : String) (v : α) :
    List (String × α) :=
  (k, v) :: eraseKey k l

/-- In-place mutation through `HashMap::get_mut`: apply `f` to the value
bound to `k`, leave everything else alone. -/
def mapUpdate {α : Type} (k : String) (f : α → α) :
    List (String × α) → List (String × α)
  | [] => []
  | (k', v) :: rest =>
    (if k' = k then (k', f v) else (k', v)) :: mapUpdate k f rest

/-- Struct `PtyManager` in pty.rs; the broadcast channel is not part of
the registry state the verified operations read or write. -/
structure PtyManager where
  sessions : List (String × PtySession)
deriving DecidableEq, Repr

/-- `PtyManager::new`. -/
def PtyManager.new : PtyManager := { sessions := [] }

/-- `PtyManager::create_session`. `freshId` is the generated UUID;
`spawnOk` is the combined outcome of the fallible OS steps (openpty,
spawn_command, try_clone_reader, take_writer), each of which returns
early via `?` before the registry insert. The new PTY is opened at the
default 24×80 geometry with no command in flight. -/
def PtyManager.create_session (m : PtyManager) (freshId : String)
    (spawnOk : Bool) : Except String String × PtyManager :=
  if spawnOk then
    let session : PtySession :=
      { id := freshId, current_command := none, written := "",
        rows := 24, cols := 80 }
    (Except.ok freshId,
     { m with sessions := mapInsert m.sessions freshId session })
  else
    (Except.error "PtySpawnError", m)

/-- `PtyManager::write_command`. `freshCmdId` and `ts` are the generated
UUID and current timestamp; `writeOk` is the outcome of the
`writeln!` to the PTY writer. The new `CommandBlock` is stored as
`current_command` before the write is attempted, so on a failed write
the replacement has already happened in the retained state. -/
def PtyManager.write_command (m : PtyManager) (session_id command : String)
    (freshCmdId : String) (ts : Nat) (writeOk : Bool) :
    Except String String × PtyManager :=
  match lookupKey session_id m.sessions with
  | some _ =>
    let command_block : CommandBlock :=
      { id := freshCmdId, session_id := session_id, command := command,
        output := [], exit_code := none, start_time := ts,
        end_time := none, status := CommandStatus.Running }
    let store := fun (s : PtySession) =>
      { s with current_command := some command_block }
    let m' : PtyManager :=
      { m with sessions := mapUpdate session_id store m.sessions }
    if writeOk then
      let wr := fun (s : PtySession) =>
        { s with written := s.written ++ command ++ "\n" }
      (Except.ok freshCmdId,
       { m' with sessions := mapUpdate session_id wr m'.sessions })
    else
      (Except.error "WriteError", m')
  | none => (Except.error "Session not found", m)

/-- `PtyManager::resize_session`. `osOk` is the outcome of the resize
ioctl on the PTY device. An unknown id falls through the `if let` and
returns `Ok(())` without touching anything. -/
def PtyManager.resize_session (m : PtyManager) (session_id : String)
    (rows cols : Nat) (osOk : Bool) : Except String Unit × PtyManager :=
  match lookupKey session_id m.sessions with
  | some _ =>
    if osOk then
      let geo := fun (s : PtySession) => { s with rows := rows, cols := cols }
      (Except.ok (), { m with sessions := mapUpdate session_id geo m.sessions })
    else
      (Except.error "ResizeError", m)
  | none => (Except.ok (), m)

/-- `PtyManager::close_session`: unconditionally removes the id and
returns `Ok(())` (removing an absent id is a no-op). -/
def PtyManager.close_session (m : PtyManager) (session_id : String) :
    Except String Unit × PtyManager :=
  (Except.ok (), { m with sessions := eraseKey session_id m.sessions })

/-- Struct `SessionManager` in session.rs. -/
structure SessionManager where
  sessions : List (String × TerminalSession)
  pty_manager : PtyManager
  active_session : Option String
deriving DecidableEq, Repr

/-- `SessionManager::new`. -/
def SessionManager.new : SessionManager :=
  { sessions := [], pty_manager := PtyManager.new, active_session := none }

/-- `SessionManager::create_session`. `homeDir` is the value of
`std::env::var("HOME").unwrap_or("/")`. On PTY success the new logical
session is inserted with `active: true` and the active pointer is set
to the new id; the error case propagates via `?` before any logical
mutation. -/
def SessionManager.create_session (sm : SessionManager) (name : String)
    (freshId homeDir : String) (spawnOk : Bool) :
    Except String String × SessionManager :=
  match sm.pty_manager.create_session freshId spawnOk with
  | (Except.error e, pty') => (Except.error e, { sm with pty_manager := pty' })
  | (Except.ok session_id, pty') =>
    let session : TerminalSession :=
      { id := session_id, name := name, active := true,
        current_directory := homeDir, commands := [] }
    (Except.ok session_id,
     { sessions := mapInsert sm.sessions session_id session,
       pty_manager := pty',
       active_session := some session_id })

/-- `SessionManager::get_session`. -/
def SessionManager.get_session (sm : SessionManager) (session_id : String) :
    Option TerminalSession :=
  lookupKey session_id sm.sessions

/-- `SessionManager::list_sessions`: a copy of all session values. -/
def SessionManager.list_sessions (sm : SessionManager) :
    List TerminalSession :=
  sm.sessions.map (fun p => p.2)

/-- `SessionManager::set_active_session`: only the active pointer is
written, and only when the id is registered. -/
def SessionManager.set_active_session (sm : SessionManager)
    (session_id : String) : Except String Unit × SessionManager :=
  if (lookupKey session_id sm.sessions).isSome then
    (Except.ok (), { sm with active_session := some session_id })
  else
    (Except.error "Session not found", sm)

/-- `SessionManager::get_active_session`. -/
def SessionManager.get_active_session (sm : SessionManager) :
    Option String :=
  sm.active_session

/-- `SessionManager::execute_command`: a pure delegation to
`PtyManager::write_command`. -/
def SessionManager.execute_command (sm : SessionManager)
    (session_id command freshCmdId : String) (ts : Nat) (writeOk : Bool) :
    Except String String × SessionManager :=
  let r := sm.pty_manager.write_command session_id command freshCmdId ts writeOk
  (r.1, { sm with pty_manager := r.2 })

/-- `SessionManager::resize_session`: a pure delegation to
`PtyManager::resize_session`. -/
def SessionManager.resize_session (sm : SessionManager)
    (session_id : String) (rows cols : Nat) (osOk : Bool) :
    Except String Unit × SessionManager :=
  let r := sm.pty_manager.resize_session session_id rows cols osOk
  (r.1, { sm with pty_manager := r.2 })

/-- `SessionManager::close_session`: closes the PTY side (through `?`,
which never fires since PTY close is infallible), removes the logical
session, and if the closed id was the active one re-points the active
pointer at an arbitrary remaining key (`keys().next()`, here the head)
or `none`. -/
def SessionManager.close_session (sm : SessionManager)
    (session_id : String) : Except String Unit × SessionManager :=
  match sm.pty_manager.close_session session_id with
  | (Except.error e, pty') => (Except.error e, { sm with pty_manager := pty' })
  | (Except.ok _, pty') =>
    let sessions' := eraseKey session_id sm.sessions
    let active := sm.active_session
    let active' :=
      if active = some session_id then
        (sessions'.head?).map (fun p => p.1)
      else active
    (Except.ok (),
     { sessions := sessions', pty_manager := pty',
       active_session := active' })

/-- One externally invokable SessionManager operation together with the
environment choices (fresh ids, timestamps, OS outcomes) made during it. -/
inductive Op where
  | create (name freshId homeDir : String) (spawnOk : Bool)
  | exec (session_id command freshCmdId : String) (ts : Nat) (writeOk : Bool)
  | setActive (session_id : String)
  | resize (session_id : String) (rows cols : Nat) (osOk : Bool)
  | close (session_id : String)
deriving DecidableEq, Repr

/-- Apply one operation, keeping only the post-state. -/
def SessionManager.applyOp (sm : SessionManager) : Op → SessionManager
  | Op.create name freshId homeDir spawnOk =>
      (sm.create_session name freshId homeDir spawnOk).2
  | Op.exec session_id command freshCmdId ts writeOk =>
      (sm.execute_command session_id command freshCmdId ts writeOk).2
  | Op.setActive session_id => (sm.set_active_session session_id).2
  | Op.resize session_id rows cols osOk =>
      (sm.resize_session session_id rows cols osOk).2
  | Op.close session_id => (sm.close_session session_id).2

/-- Run a sequence of operations from a state. -/
def SessionManager.runOps (sm : SessionManager) : List Op → SessionManager
  | [] => sm
  | op :: rest => (sm.applyOp op).runOps rest

/-- A state is reachable when some operation sequence produces it from
`SessionManager::new`. -/
def SessionManager.Reachable (sm : SessionManager) : Prop :=
  ∃ ops : List Op, SessionManager.new.runOps ops = sm

/-! ### Association-list lemmas -/

theorem lookupKey_eraseKey_self {α : Type} (l : List (String × α))
    (k : String) : lookupKey k (eraseKey k l) = none := by
  induction l with
  | nil => rfl
  | cons p t ih =>
    obtain ⟨a, b⟩ := p
    simp only [eraseKey]
    by_cases ha : a = k
    · rw [if_pos ha]
      exact ih
    · rw [if_neg ha]
      simp only [lookupKey, if_neg ha]
      exact ih

theorem lookupKey_eraseKey_ne {α : Type} (l : List (String × α))
    (k k' : String) (h : k ≠ k') :
    lookupKey k' (eraseKey k l) = lookupKey k' l := by
  induction l with
  | nil => rfl
  | cons p t ih =>
    obtain ⟨a, b⟩ := p
    simp only [eraseKey]
    by_cases ha : a = k
    · rw [if_pos ha]
      have hak : ¬ (a = k') := fun hh => h (ha.symm.trans hh)
      simp only [lookupKey, if_neg hak]
      exact ih
    · rw [if_neg ha]
      simp only [lookupKey]
      by_cases hak : a = k'
      · rw [if_pos hak, if_pos hak]
      · rw [if_neg hak, if_neg hak]
        exact ih

theorem lookupKey_mapInsert_self {α : Type} (l : List (String × α))
    (k : String) (v : α) : lookupKey k (mapInsert l k v) = some v := by
  simp [mapInsert, lookupKey]

theorem lookupKey_mapInsert_ne {α : Type} (l : List (String × α))
    (k k' : String) (v : α) (h : k ≠ k') :
    lookupKey k' (mapInsert l k v) = lookupKey k' l := by
  simp only [mapInsert, lookupKey, if_neg h]
  exact lookupKey_eraseKey_ne l k k' h

theorem lookupKey_mapUpdate_self {α : Type} (l : List (String × α))
    (k : String) (f : α → α) :
    lookupKey k (mapUpdate k f l) = (lookupKey k l).map f := by
  induction l with
  | nil => rfl
  | cons p t ih =>
    obtain ⟨a, b⟩ := p
    simp only [mapUpdate]
    by_cases ha : a = k
    · rw [if_pos ha]
      simp only [lookupKey, if_pos ha]
      rfl
    · rw [if_neg ha]
      simp only [lookupKey, if_neg ha]
      exact ih

theorem lookupKey_mapUpdate_ne {α : Type} (l : List (String × α))
    (k k' : String) (f : α → α) (h : k ≠ k') :
    lookupKey k' (mapUpdate k f l) = lookupKey k' l := by
  induction l with
  | nil => rfl
  | cons p t ih =>
    obtain ⟨a, b⟩ := p
    simp only [mapUpdate]
    by_cases ha : a = k
    · rw [if_pos ha]
      have hak : ¬ (a = k') := fun hh => h (ha.symm.trans hh)
      simp only [lookupKey, if_neg hak]
      exact ih
    · rw [if_neg ha]
      simp only [lookupKey]
      by_cases hak : a = k'
      · rw [if_pos hak, if_pos hak]
      · rw [if_neg hak, if_neg hak]
        exact ih

theorem lookupKey_head {α : Type} (l : List (String × α)) (p : String × α)
    (h : l.head? = some p) : lookupKey p.1 l = some p.2 := by
  cases l with
  | nil => cases h
  | cons q t =>
    obtain ⟨a, b⟩ := q
    simp only [List.head?_cons, Option.some.injEq] at h
    subst h
    simp [lookupKey]

/-! ### Frame lemmas for `write_command` -/

theorem lookupKey_mapUpdate_isSome {α : Type} (l : List (String × α))
    (k x : String) (f : α → α) :
    (lookupKey x (mapUpdate k f l)).isSome = (lookupKey x l).isSome := by
  by_cases hx : k = x
  · subst hx
    rw [lookupKey_mapUpdate_self]
    cases lookupKey k l <;> rfl
  · rw [lookupKey_mapUpdate_ne l k x f hx]

/-- Observable PTY-session data that `write_command` must not touch:
identity and geometry. -/
def PtySession.frame (s : PtySession) : String × Nat × Nat :=
  (s.id, s.rows, s.cols)

/-- The identity-and-geometry view of a PTY registry. -/
def frameMap (l : List (String × PtySession)) :
    List (String × (String × Nat × Nat)) :=
  l.map (fun p => (p.1, p.2.frame))

theorem frameMap_mapUpdate (k : String) (f : PtySession → PtySession)
    (l : List (String × PtySession)) (hg : ∀ a, (f a).frame = a.frame) :
    frameMap (mapUpdate k f l) = frameMap l := by
  induction l with
  | nil => rfl
  | cons p t ih =>
    obtain ⟨a, b⟩ := p
    simp only [frameMap, mapUpdate, List.map_cons] at *
    by_cases ha : a = k
    · rw [if_pos ha, ih, hg]
    · rw [if_neg ha, ih]

theorem write_command_frame (m : PtyManager) (session_id command : String)
    (freshCmdId : String) (ts : Nat) (writeOk : Bool) :
    frameMap (m.write_command session_id command freshCmdId ts writeOk).2.sessions
      = frameMap m.sessions := by
  unfold PtyManager.write_command
  cases hl : lookupKey session_id m.sessions with
  | none => simp [hl]
  | some s =>
    cases writeOk with
    | false =>
      simp only [hl, Bool.false_eq_true, if_false]
      refine frameMap_mapUpdate _ _ _ ?_
      intro a
      rfl
    | true =>
      simp only [hl, if_true]
      refine (frameMap_mapUpdate _ _ _ ?_).trans (frameMap_mapUpdate _ _ _ ?_)
      all_goals intro a
      all_goals rfl

theorem write_command_lookup_isSome (m : PtyManager)
    (session_id command freshCmdId : String) (ts : Nat) (writeOk : Bool)
    (x : String) :
    (lookupKey x (m.write_command session_id command freshCmdId ts writeOk).2.sessions).isSome
      = (lookupKey x m.sessions).isSome := by
  unfold PtyManager.write_command
  cases hl : lookupKey session_id m.sessions with
  | none => simp [hl]
  | some s =>
    cases writeOk with
    | false =>
      simp only [hl, Bool.false_eq_true, if_false]
      exact lookupKey_mapUpdate_isSome _ _ _ _
    | true =>
      simp only [hl, if_true]
      rw [lookupKey_mapUpdate_isSome, lookupKey_mapUpdate_isSome]

/-! ### Claim theorems -/

/-- C6: `create_session` is atomic on failure. When PTY allocation or
shell spawn fails, `PtyManager::create_session` returns the spawn error
with its registry exactly as before, and `SessionManager::create_session`
propagates the error unchanged, records no logical session, and leaves
the active pointer and every existing session untouched (the whole
manager state is literally the pre-state). -/
theorem C6_create_session_atomic_on_failure (sm : SessionManager)
    (name freshId homeDir : String) :
    sm.pty_manager.create_session freshId false
        = (Except.error "PtySpawnError", sm.pty_manager) ∧
    sm.create_session name freshId homeDir false
        = (Except.error "PtySpawnError", sm) :=
  ⟨rfl, rfl⟩

/-- C8: `set_active_session` on an unregistered id returns the
`SessionNotFound` error and leaves the manager state (registered
sessions, every active flag, active pointer) exactly as before. -/
theorem C8_set_active_session_unknown_id (sm : SessionManager)
    (session_id : String)
    (h : lookupKey session_id sm.sessions = none) :
    sm.set_active_session session_id
      = (Except.error "Session not found", sm) := by
  simp [SessionManager.set_active_session, h]

/-- Witness for C8 at a concrete input: the fresh manager has no
session `"ghost"`. -/
theorem C8_set_active_session_unknown_id_witness :
    SessionManager.new.set_active_session "ghost"
      = (Except.error "Session not found", SessionManager.new) :=
  C8_set_active_session_unknown_id SessionManager.new "ghost" rfl

/-- C9: `execute_command` leaves every logical session record unchanged
(id, name, active flag, current_directory, commands — nothing is
appended synchronously) and leaves the active pointer unchanged; on the
PTY side it preserves every session's identity and geometry, touching
only `current_command` and the written byte stream. -/
theorem C9_execute_command_logical_frame (sm : SessionManager)
    (session_id command freshCmdId : String) (ts : Nat) (writeOk : Bool) :
    (sm.execute_command session_id command freshCmdId ts writeOk).2.sessions
        = sm.sessions ∧
    (sm.execute_command session_id command freshCmdId ts writeOk).2.active_session
        = sm.active_session ∧
    frameMap (sm.execute_command session_id command freshCmdId ts writeOk).2.pty_manager.sessions
      = frameMap sm.pty_manager.sessions :=
  ⟨rfl, rfl, write_command_frame sm.pty_manager session_id command freshCmdId ts writeOk⟩

/-- C2 counterexample: on the fresh manager, whose PTY registry is
empty, `resize_session` on the unknown id returns `Ok(())`, not a
`SessionNotFound` error as the claim states. -/
theorem C2_resize_unknown_counterexample :
    (SessionManager.new.resize_session "ghost" 30 100 true).1
      = Except.ok () := rfl

/-- C2 (amended): `resize_session` on an id absent from the PTY
registry returns success (`Ok(())`) — not a `SessionNotFound` error —
and leaves the whole manager state (registered sessions, active
pointer, command records) exactly as before the call. -/
theorem C2_resize_unknown_id_noop (sm : SessionManager)
    (session_id : String) (rows cols : Nat) (osOk : Bool)
    (h : lookupKey session_id sm.pty_manager.sessions = none) :
    sm.resize_session session_id rows cols osOk = (Except.ok (), sm) := by
  unfold SessionManager.resize_session PtyManager.resize_session
  simp [h]

/-- Witness for C2 (amended) at a concrete input. -/
theorem C2_resize_unknown_id_noop_witness :
    SessionManager.new.resize_session "ghost" 30 100 true
      = (Except.ok (), SessionManager.new) :=
  C2_resize_unknown_id_noop SessionManager.new "ghost" 30 100 true rfl

/-- C3: on a registered session id (and a successful PTY write),
`write_command` returns the fresh command id and replaces the session's
`current_command` with a fresh block whose status is `Running`, whose
`start_time` is the current timestamp, whose `end_time` and `exit_code`
are `None` and whose `output` is empty, while appending the command
text plus a newline to the PTY byte stream; on an unregistered id it
fails with the `SessionNotFound` error and changes nothing. -/
theorem C3_write_command_spec (m : PtyManager)
    (session_id command freshCmdId : String) (ts : Nat) :
    (∀ s, lookupKey session_id m.sessions = some s →
      (m.write_command session_id command freshCmdId ts true).1
          = Except.ok freshCmdId ∧
      lookupKey session_id
          (m.write_command session_id command freshCmdId ts true).2.sessions
        = some { s with
            current_command := some
              { id := freshCmdId, session_id := session_id,
                command := command, output := [], exit_code := none,
                start_time := ts, end_time := none,
                status := CommandStatus.Running },
            written := s.written ++ command ++ "\n" }) ∧
    (lookupKey session_id m.sessions = none →
      m.write_command session_id command freshCmdId ts true
        = (Except.error "Session not found", m)) := by
  constructor
  · intro s h
    unfold PtyManager.write_command
    simp only [h, if_true]
    refine ⟨trivial, ?_⟩
    rw [lookupKey_mapUpdate_self, lookupKey_mapUpdate_self, h]
    rfl
  · intro h
    unfold PtyManager.write_command
    simp only [h]

/-- Witness for C3 at concrete inputs: a manager with one session
`"s1"`, and the fresh manager with no session at all. -/
theorem C3_write_command_spec_witness :
    ((PtyManager.new.create_session "s1" true).2.write_command
        "s1" "ls" "c1" 7 true).1 = Except.ok "c1" ∧
    PtyManager.new.write_command "s1" "ls" "c1" 7 true
      = (Except.error "Session not found", PtyManager.new) :=
  ⟨((C3_write_command_spec (PtyManager.new.create_session "s1" true).2
      "s1" "ls" "c1" 7).1 _ rfl).1,
   (C3_write_command_spec PtyManager.new "s1" "ls" "c1" 7).2 rfl⟩

/-- C10: `write_command` is not atomic on a failed PTY write. The new
`Running` block is stored as `current_command` before the write is
attempted, so when the write fails the call returns the write error,
yet the session is still registered and its previous in-flight
`current_command` has already been replaced by the new block. -/
theorem C10_write_command_mutates_before_failed_write (m : PtyManager)
    (session_id command freshCmdId : String) (ts : Nat) (s : PtySession)
    (h : lookupKey session_id m.sessions = some s) :
    (m.write_command session_id command freshCmdId ts false).1
        = Except.error "WriteError" ∧
    lookupKey session_id
        (m.write_command session_id command freshCmdId ts false).2.sessions
      = some { s with
          current_command := some
            { id := freshCmdId, session_id := session_id,
              command := command, output := [], exit_code := none,
              start_time := ts, end_time := none,
              status := CommandStatus.Running } } := by
  unfold PtyManager.write_command
  simp only [h, Bool.false_eq_true, if_false]
  refine ⟨trivial, ?_⟩
  rw [lookupKey_mapUpdate_self, h]
  rfl

/-- Witness for C10 at a concrete input: the session `"s1"` created in
a fresh PTY manager, with a failing write. -/
theorem C10_write_command_mutates_before_failed_write_witness :
    ((PtyManager.new.create_session "s1" true).2.write_command
        "s1" "ls" "c1" 7 false).1 = Except.error "WriteError" ∧
    lookupKey "s1"
        ((PtyManager.new.create_session "s1" true).2.write_command
          "s1" "ls" "c1" 7 false).2.sessions
      = some
          { id := "s1",
            current_command := some
              { id := "c1", session_id := "s1", command := "ls",
                output := [], exit_code := none, start_time := 7,
                end_time := none, status := CommandStatus.Running },
            written := "", rows := 24, cols := 80 } :=
  C10_write_command_mutates_before_failed_write
    (PtyManager.new.create_session "s1" true).2 "s1" "ls" "c1" 7
    { id := "s1", current_command := none, written := "",
      rows := 24, cols := 80 } rfl

/-! ### Registry-alignment invariant (C4) -/

theorem resize_session_lookup_isSome (m : PtyManager) (session_id : String)
    (rows cols : Nat) (osOk : Bool) (x : String) :
    (lookupKey x (m.resize_session session_id rows cols osOk).2.sessions).isSome
      = (lookupKey x m.sessions).isSome := by
  unfold PtyManager.resize_session
  cases hl : lookupKey session_id m.sessions with
  | none => simp [hl]
  | some s =>
    cases osOk with
    | false => simp [hl]
    | true =>
      simp only [hl, if_true]
      exact lookupKey_mapUpdate_isSome _ _ _ _

/-- The logical registry and the PTY registry hold the same ids. -/
def idsAligned (sm : SessionManager) : Prop :=
  ∀ x : String,
    (lookupKey x sm.sessions).isSome
      = (lookupKey x sm.pty_manager.sessions).isSome

theorem idsAligned_applyOp (sm : SessionManager) (op : Op)
    (h : idsAligned sm) : idsAligned (sm.applyOp op) := by
  cases op with
  | create name freshId homeDir spawnOk =>
    cases spawnOk with
    | false => exact h
    | true =>
      intro x
      have hs : (sm.applyOp (Op.create name freshId homeDir true)).sessions
          = mapInsert sm.sessions freshId
              { id := freshId, name := name, active := true,
                current_directory := homeDir, commands := [] } := rfl
      have hp : (sm.applyOp (Op.create name freshId homeDir true)).pty_manager.sessions
          = mapInsert sm.pty_manager.sessions freshId
              { id := freshId, current_command := none, written := "",
                rows := 24, cols := 80 } := rfl
      rw [hs, hp]
      by_cases hx : freshId = x
      · subst hx
        rw [lookupKey_mapInsert_self, lookupKey_mapInsert_self]
        rfl
      · rw [lookupKey_mapInsert_ne _ _ _ _ hx,
          lookupKey_mapInsert_ne _ _ _ _ hx]
        exact h x
  | exec session_id command freshCmdId ts writeOk =>
    intro x
    have hs : (sm.applyOp (Op.exec session_id command freshCmdId ts writeOk)).sessions
        = sm.sessions := rfl
    have hp : (sm.applyOp (Op.exec session_id command freshCmdId ts writeOk)).pty_manager
        = (sm.pty_manager.write_command session_id command freshCmdId ts writeOk).2 := rfl
    rw [hs, hp, write_command_lookup_isSome]
    exact h x
  | setActive session_id =>
    intro x
    by_cases hc : (lookupKey session_id sm.sessions).isSome = true
    · have he : sm.applyOp (Op.setActive session_id)
          = { sm with active_session := some session_id } := by
        simp [SessionManager.applyOp, SessionManager.set_active_session, hc]
      rw [he]
      exact h x
    · have he : sm.applyOp (Op.setActive session_id) = sm := by
        simp [SessionManager.applyOp, SessionManager.set_active_session, hc]
      rw [he]
      exact h x
  | resize session_id rows cols osOk =>
    intro x
    have hs : (sm.applyOp (Op.resize session_id rows cols osOk)).sessions
        = sm.sessions := rfl
    have hp : (sm.applyOp (Op.resize session_id rows cols osOk)).pty_manager
        = (sm.pty_manager.resize_session session_id rows cols osOk).2 := rfl
    rw [hs, hp, resize_session_lookup_isSome]
    exact h x
  | close session_id =>
    intro x
    have hs : (sm.applyOp (Op.close session_id)).sessions
        = eraseKey session_id sm.sessions := rfl
    have hp : (sm.applyOp (Op.close session_id)).pty_manager.sessions
        = eraseKey session_id sm.pty_manager.sessions := rfl
    rw [hs, hp]
    by_cases hx : session_id = x
    · subst hx
      rw [lookupKey_eraseKey_self, lookupKey_eraseKey_self]
      rfl
    · rw [lookupKey_eraseKey_ne _ _ _ hx, lookupKey_eraseKey_ne _ _ _ hx]
      exact h x

theorem runOps_preserves_idsAligned (ops : List Op) (sm : SessionManager)
    (h : idsAligned sm) : idsAligned (sm.runOps ops) := by
  induction ops generalizing sm with
  | nil => exact h
  | cons op rest ih => exact ih (sm.applyOp op) (idsAligned_applyOp sm op h)

/-- C4: in every reachable manager state — that is, after every
sequence of SessionManager operations starting from `new` — a logical
session with id `x` exists exactly when a PTY session with id `x`
exists: creation inserts into both registries together, closing removes
from both together, and no operation leaves one registry holding an id
the other lacks. -/
theorem C4_registries_hold_same_ids (sm : SessionManager)
    (h : sm.Reachable) (x : String) :
    (lookupKey x sm.sessions).isSome
      = (lookupKey x sm.pty_manager.sessions).isSome := by
  obtain ⟨ops, rfl⟩ := h
  exact runOps_preserves_idsAligned ops SessionManager.new (fun y => rfl) x

/-- A concrete reachable state shared by several witnesses: two
sessions created in a fresh manager (ids `"id1"` then `"id2"`). -/
def demoTwo : SessionManager :=
  SessionManager.new.runOps
    [Op.create "A" "id1" "/home/u" true, Op.create "B" "id2" "/home/u" true]

/-- Witness for C4 at a concrete reachable state and id. -/
theorem C4_registries_hold_same_ids_witness :
    (lookupKey "id1" demoTwo.sessions).isSome
      = (lookupKey "id1" demoTwo.pty_manager.sessions).isSome :=
  C4_registries_hold_same_ids demoTwo
    ⟨[Op.create "A" "id1" "/home/u" true, Op.create "B" "id2" "/home/u" true],
      rfl⟩ "id1"

/-- C1: the claim fails on the code. `create_session` inserts every new
session with `active: true` and never clears the previous session's
flag, and `set_active_session` writes only the separate active-pointer,
never any session's `active` field. After creating sessions `"id1"` and
`"id2"`, both sessions report `active == true` in `list_sessions()`,
and they still both do after `set_active_session "id1"` — while the
manager's active pointer designates a single session throughout. -/
theorem C1_multiple_sessions_active_exhibit :
    ((demoTwo.list_sessions.filter (fun s => s.active)).length = 2) ∧
    (((demoTwo.set_active_session "id1").2.list_sessions.filter
        (fun s => s.active)).length = 2) ∧
    demoTwo.get_active_session = some "id2" :=
  ⟨rfl, rfl, rfl⟩

/-! ### Close-session claims (C5, C7) -/

theorem mem_eraseKey {α : Type} {l : List (String × α)} {k : String}
    {p : String × α} (hp : p ∈ eraseKey k l) : p ∈ l ∧ p.1 ≠ k := by
  induction l with
  | nil => cases hp
  | cons q t ih =>
    obtain ⟨a, b⟩ := q
    simp only [eraseKey] at hp
    by_cases ha : a = k
    · rw [if_pos ha] at hp
      obtain ⟨h1, h2⟩ := ih hp
      exact ⟨List.mem_cons_of_mem _ h1, h2⟩
    · rw [if_neg ha] at hp
      rcases List.mem_cons.mp hp with h1 | h1
      · subst h1
        exact ⟨List.mem_cons_self _ _, ha⟩
      · obtain ⟨h2, h3⟩ := ih h1
        exact ⟨List.mem_cons_of_mem _ h2, h3⟩

/-- C5: `close_session` always returns success — also on an unknown or
already-closed id, making a second close idempotent — removes the id
from the registry so that no session in later `list_sessions()` results
carries it, and leaves every other session (logical and PTY) exactly as
it was. The hypothesis is the registry well-formedness that each stored
session's `id` field equals its key. -/
theorem C5_close_session_removes_and_is_idempotent (sm : SessionManager)
    (session_id : String)
    (hwf : ∀ p ∈ sm.sessions, (p.2 : TerminalSession).id = p.1) :
    (sm.close_session session_id).1 = Except.ok () ∧
    (∀ s ∈ (sm.close_session session_id).2.list_sessions,
      s.id ≠ session_id) ∧
    (∀ x, x ≠ session_id →
      lookupKey x (sm.close_session session_id).2.sessions
        = lookupKey x sm.sessions) ∧
    (∀ x, x ≠ session_id →
      lookupKey x (sm.close_session session_id).2.pty_manager.sessions
        = lookupKey x sm.pty_manager.sessions) := by
  have hsess : (sm.close_session session_id).2.sessions
      = eraseKey session_id sm.sessions := rfl
  have hpty : (sm.close_session session_id).2.pty_manager.sessions
      = eraseKey session_id sm.pty_manager.sessions := rfl
  refine ⟨rfl, ?_, ?_, ?_⟩
  · intro s hsmem
    have hmap : s ∈ (eraseKey session_id sm.sessions).map (fun p => p.2) := by
      simpa [SessionManager.list_sessions, hsess] using hsmem
    rcases List.mem_map.mp hmap with ⟨p, hp, hps⟩
    obtain ⟨hmem, hne⟩ := mem_eraseKey hp
    rw [← hps, hwf p hmem]
    exact hne
  · intro x hx
    rw [hsess, lookupKey_eraseKey_ne _ _ _ (fun hh => hx hh.symm)]
  · intro x hx
    rw [hpty, lookupKey_eraseKey_ne _ _ _ (fun hh => hx hh.symm)]

/-- Witness for C5 at a concrete input: closing session `"id2"` of the
two-session demo state succeeds and leaves session `"id1"` untouched. -/
theorem C5_close_session_removes_and_is_idempotent_witness :
    (demoTwo.close_session "id2").1 = Except.ok () ∧
    lookupKey "id1" (demoTwo.close_session "id2").2.sessions
      = lookupKey "id1" demoTwo.sessions :=
  ⟨(C5_close_session_removes_and_is_idempotent demoTwo "id2"
      (by decide)).1,
   (C5_close_session_removes_and_is_idempotent demoTwo "id2"
      (by decide)).2.2.1 "id1" (by decide)⟩

/-- C7: if the closed id was the designated active session, afterwards
the active pointer designates one of the remaining registered sessions,
or nothing exactly when the registry became empty; if the closed id was
not the active one, the active pointer is unchanged. -/
theorem C7_close_session_active_replacement (sm : SessionManager)
    (session_id : String) :
    (sm.active_session = some session_id →
      ((sm.close_session session_id).2.active_session = none →
        (sm.close_session session_id).2.sessions = []) ∧
      (∀ a, (sm.close_session session_id).2.active_session = some a →
        (lookupKey a (sm.close_session session_id).2.sessions).isSome
          = true)) ∧
    (sm.active_session ≠ some session_id →
      (sm.close_session session_id).2.active_session
        = sm.active_session) := by
  have hact : (sm.close_session session_id).2.active_session
      = (if sm.active_session = some session_id
          then ((eraseKey session_id sm.sessions).head?).map (fun p => p.1)
          else sm.active_session) := rfl
  have hsess : (sm.close_session session_id).2.sessions
      = eraseKey session_id sm.sessions := rfl
  rw [hact, hsess]
  by_cases h : sm.active_session = some session_id
  · rw [if_pos h]
    constructor
    · intro _
      constructor
      · intro hn
        cases hl : eraseKey session_id sm.sessions with
        | nil => rfl
        | cons p t =>
          rw [hl] at hn
          simp at hn
      · intro a ha
        cases hl : eraseKey session_id sm.sessions with
        | nil =>
          rw [hl] at ha
          simp at ha
        | cons p t =>
          rw [hl] at ha
          have hpa : p.1 = a := by simpa using ha
          rw [← hpa]
          obtain ⟨a1, b1⟩ := p
          simp [lookupKey]
    · intro hne
      exact absurd h hne
  · rw [if_neg h]
    constructor
    · intro hcontra
      exact absurd hcontra h
    · intro _
      rfl

/-- Witness for C7 at a concrete input: in the two-session demo state
the active session is `"id2"`; closing it re-points the active pointer
at the remaining session `"id1"`, which is still registered. -/
theorem C7_close_session_active_replacement_witness :
    (lookupKey "id1" (demoTwo.close_session "id2").2.sessions).isSome
      = true :=
  ((C7_close_session_active_replacement demoTwo "id2").1 rfl).2 "id1" rfl
